import Mathlib

/-!
Verification of the filtering/scoring pipeline of the streamlit-app repository
(`src/app.py`, `src/app_advanced.py`).

The pipeline operates on a pandas DataFrame.  We embed:
  * cell values (`Val`): a cell of an object-dtype column is a string or an
    already-numeric float; a cell of a numeric-dtype column is a float, where a
    float is a finite rational, `+inf`, `-inf`, or `NaN` (pandas' missing value);
  * `clean_numeric_column` (identical in both source files): object columns are
    stringified, `%`/`$`/`,` removed, whitespace-trimmed, and parsed with
    `pd.to_numeric(..., errors="coerce")` (parse failure gives `NaN`); numeric
    columns pass through `pd.to_numeric` unchanged;
  * the medians and scores of `calculate_score`, and the three filter stages of
    `app_advanced.py` (date/country isin-masks, install `>=` / CPI `<=`
    thresholds, score `>=` threshold).
Floats are modelled as exact rationals plus the special values; the claims under
study do not depend on binary rounding.
-/

set_option maxRecDepth 100000

namespace StreamlitApp

/-- A pandas float value: finite, `+inf`, `-inf`, or `NaN`.
`NaN` is pandas' missing-value marker (`dropna` removes it), so we call it
`missing`. -/
inductive NumVal where
  | fin : ℚ → NumVal
  | pinf : NumVal
  | ninf : NumVal
  | missing : NumVal
deriving DecidableEq

/-- A raw cell of a DataFrame column: a string, or an already-numeric value. -/
inductive Val where
  | str : String → Val
  | num : ℚ → Val
  | nan : Val
  | pinf : Val
  | ninf : Val
deriving DecidableEq

/-- `series.str.replace("%","").str.replace("$","").str.replace(",","")`:
remove every occurrence of the three characters. -/
def stripSyms (cs : List Char) : List Char :=
  cs.filter (fun ch => !(ch == '%' || ch == '$' || ch == ','))

/-- Whitespace characters removed by Python's `str.strip()`. -/
def isWs (ch : Char) : Bool :=
  ch == ' ' || ch == '\t' || ch == '\n' || ch == '\r' || ch == '\x0b' || ch == '\x0c'

/-- `str.strip()`: drop leading and trailing whitespace. -/
def trimChars (cs : List Char) : List Char :=
  ((cs.dropWhile isWs).reverse.dropWhile isWs).reverse

/-- Value of a string of decimal digits. -/
def digitsVal (cs : List Char) : ℕ :=
  cs.foldl (fun a ch => 10 * a + (ch.toNat - 48)) 0

/-- Parse the optional exponent part (`e`/`E`, optional sign, digits) that may
follow a float literal's mantissa; `cs` is what remains after the mantissa. -/
def parseExpPart (m : ℚ) (cs : List Char) : Option ℚ :=
  match cs with
  | [] => some m
  | ch :: r =>
    if ch == 'e' || ch == 'E' then
      let p : ℤ × List Char :=
        match r with
        | '+' :: t => (1, t)
        | '-' :: t => (-1, t)
        | _ => (1, r)
      let ds := p.2.takeWhile Char.isDigit
      if ds.length == 0 || ds.length != p.2.length then none
      else some (m * (10 : ℚ) ^ (p.1 * (digitsVal ds : ℤ)))
    else none

/-- Parse an unsigned float literal: digits, optional `.` and fraction digits,
optional exponent.  At least one mantissa digit is required and the whole
input must be consumed. -/
def parseMantissa (cs : List Char) : Option ℚ :=
  let ip := cs.takeWhile Char.isDigit
  let r1 := cs.drop ip.length
  match r1 with
  | '.' :: r2 =>
    let fp := r2.takeWhile Char.isDigit
    let r3 := r2.drop fp.length
    if ip.length == 0 && fp.length == 0 then none
    else parseExpPart ((digitsVal ip : ℚ) + (digitsVal fp : ℚ) / (10 : ℚ) ^ fp.length) r3
  | _ =>
    if ip.length == 0 then none
    else parseExpPart (digitsVal ip : ℚ) r1

def toLowerList (cs : List Char) : List Char := cs.map Char.toLower

/-- `pd.to_numeric(s, errors="coerce")` on one string: optional sign, then a
float literal, `inf`/`infinity`, or `nan` (case-insensitive).  Anything
unparseable coerces to `NaN` (`missing`). -/
def parseNum (cs : List Char) : NumVal :=
  let p : ℚ × List Char :=
    match cs with
    | '+' :: t => (1, t)
    | '-' :: t => (-1, t)
    | _ => (1, cs)
  let lb := toLowerList p.2
  if lb == ['i', 'n', 'f'] || lb == ['i', 'n', 'f', 'i', 'n', 'i', 't', 'y'] then
    (if p.1 < 0 then NumVal.ninf else NumVal.pinf)
  else if lb == ['n', 'a', 'n'] then NumVal.missing
  else
    match parseMantissa p.2 with
    | some q => NumVal.fin (p.1 * q)
    | none => NumVal.missing

/-- One string cell through the object-dtype branch of `clean_numeric_column`:
remove `%`, `$`, `,`; strip whitespace; parse (failure gives `NaN`). -/
def cleanCell (s : String) : NumVal :=
  parseNum (trimChars (stripSyms s.data))

/-- One cell of an object column through `clean_numeric_column`: string cells
are cleaned and parsed; cells that already hold a float round-trip through
`astype(str)` and `pd.to_numeric` unchanged (`NaN` stringifies to `"nan"`,
which parses back to `NaN`; infinities likewise). -/
def cleanVal : Val → NumVal
  | .str s => cleanCell s
  | .num q => .fin q
  | .nan => .missing
  | .pinf => .pinf
  | .ninf => .ninf

/-- A DataFrame column together with its dtype: `numeric` (float/int dtype) or
`obj` (object dtype). -/
inductive Column where
  | numeric : List NumVal → Column
  | obj : List Val → Column
deriving DecidableEq

/-- `clean_numeric_column(series)` from `src/app.py` / `src/app_advanced.py`:
object dtype is stringified/stripped/parsed elementwise, any other dtype goes
through `pd.to_numeric(series, errors="coerce")`, which leaves numeric values
(including `NaN` and infinities) unchanged. -/
def clean_numeric_column : Column → List NumVal
  | .numeric xs => xs
  | .obj xs => xs.map cleanVal

def NumVal.isMissing : NumVal → Bool
  | .missing => true
  | _ => false

/-- Elementwise `<` on pandas floats: any comparison with `NaN` is `False`. -/
def NumVal.ltB : NumVal → NumVal → Bool
  | .fin a, .fin b => decide (a < b)
  | .fin _, .pinf => true
  | .ninf, .fin _ => true
  | .ninf, .pinf => true
  | _, _ => false

/-- `series >= t` for a finite threshold `t`: `NaN` compares `False`. -/
def NumVal.geQ : NumVal → ℚ → Bool
  | .fin a, t => decide (t ≤ a)
  | .pinf, _ => true
  | _, _ => false

/-- `series <= t` for a finite threshold `t`: `NaN` compares `False`. -/
def NumVal.leQ : NumVal → ℚ → Bool
  | .fin a, t => decide (a ≤ t)
  | .ninf, _ => true
  | _, _ => false

/-- Sort order used by the median: `-inf` below finite values below `+inf`. -/
def nvLe : NumVal → NumVal → Bool
  | .ninf, _ => true
  | _, .ninf => false
  | .fin a, .fin b => decide (a ≤ b)
  | .fin _, _ => true
  | _, .fin _ => false
  | .pinf, _ => true
  | _, .pinf => false
  | .missing, .missing => true

def nvInsert (a : NumVal) : List NumVal → List NumVal
  | [] => [a]
  | b :: r => if nvLe a b then a :: b :: r else b :: nvInsert a r

def nvSort : List NumVal → List NumVal
  | [] => []
  | a :: r => nvInsert a (nvSort r)

/-- Mean of two pandas floats (the even-count middle pair of a median):
`(+inf + -inf)/2` is `NaN`. -/
def nvMean : NumVal → NumVal → NumVal
  | .fin a, .fin b => .fin ((a + b) / 2)
  | .pinf, .ninf => .missing
  | .ninf, .pinf => .missing
  | .pinf, _ => .pinf
  | _, .pinf => .pinf
  | .ninf, _ => .ninf
  | _, .ninf => .ninf
  | _, _ => .missing

/-- `Series.median()` of a non-empty series of non-`NaN` values: ascending
sort; odd count takes the middle element, even count averages the two middle
elements. -/
def medianList (l : List NumVal) : NumVal :=
  let s := nvSort l
  if s.length % 2 = 1 then s.getD (s.length / 2) .missing
  else nvMean (s.getD (s.length / 2 - 1) .missing) (s.getD (s.length / 2) .missing)

/-- The raw DataFrame: named columns over `nrows` rows.  Filtered views are
represented by lists of row indices into this table, as pandas boolean masks
select index subsets without reordering. -/
structure DataFrame where
  nrows : ℕ
  cols : List (String × Column)

/-- `name in df.columns` / `df[name]`: the first column with the given name. -/
def DataFrame.col? (df : DataFrame) (name : String) : Option Column :=
  (df.cols.find? (fun p => p.1 == name)).map Prod.snd

def NumVal.toVal : NumVal → Val
  | .fin q => .num q
  | .pinf => .pinf
  | .ninf => .ninf
  | .missing => .nan

/-- The raw cell of a column at a row index (as compared by `Series.isin`). -/
def Column.cell : Column → ℕ → Val
  | .numeric xs, i => NumVal.toVal (xs.getD i .missing)
  | .obj xs, i => xs.getD i (.str "")

/-- The cleaned value of row `i` of a column: `clean_numeric_column` is
elementwise, so a mask-filtered column cleans to the cleaned raw column
restricted to the selected indices. -/
def Column.cleanAt (c : Column) (i : ℕ) : NumVal :=
  (clean_numeric_column c).getD i .missing

/-- `col_map` entries used by the pipeline (`src/app_advanced.py`). -/
def dateCol : String := "测试日期"

def countryCol : String := "国家"

def installCol : String := "Install(AF)"

def cpiCol : String := "CPI"

/-- The scoring rules of `calculate_score`: metric column name and direction
(`true` = higher-is-better, scored with `>` median; `false` = lower-is-better,
scored with `<` median).  CPI is intentionally absent. -/
def metricsCfg : List (String × Bool) :=
  [("CTR", true), ("CVR", true), ("次留", true), ("CPM", false)]

/-- One `isin` mask conjunct: `if sel is not None and col_map[k] in df.columns:
query &= df[col].isin(sel)`; when the selection is absent or the column is
missing the conjunct stays `True`. -/
def passIsin (df : DataFrame) (sel : Option (List Val)) (name : String) (i : ℕ) : Bool :=
  match sel, df.col? name with
  | some ss, some c => ss.contains (c.cell i)
  | _, _ => true

/-- `view[view_col.isin(sel)]`: one set-membership filter applied to a view. -/
def filterSel (df : DataFrame) (sel : Option (List Val)) (name : String)
    (v : List ℕ) : List ℕ :=
  v.filter (passIsin df sel name)

/-- Stage 1 (`query_date_country` / `df_date_country_filtered`): rows of the
raw table passing the date-set and country-set membership masks. -/
def stage1 (df : DataFrame) (selDate selCountry : Option (List Val)) : List ℕ :=
  (List.range df.nrows).filter
    (fun i => passIsin df selDate dateCol i && passIsin df selCountry countryCol i)

/-- The per-metric median of `calculate_score`: clean the snapshot's column,
drop `NaN`, and take the median; `None` when the column is absent from the
schema or no valid values remain. -/
def benchmarkOf (df : DataFrame) (s1 : List ℕ) (name : String) : Option NumVal :=
  match df.col? name with
  | none => none
  | some c =>
    let valid := (s1.map c.cleanAt).filter (fun v => !v.isMissing)
    if valid.length = 0 then none else some (medianList valid)

/-- The contribution of one scoring rule to row `i`'s score: `+1` when the
cleaned value beats the rule's median in the rule's direction, skipped when
the column is absent or its median is `None`. -/
def scoreContrib (df : DataFrame) (s1 : List ℕ) (i : ℕ) (cfg : String × Bool) : ℕ :=
  match df.col? cfg.1, benchmarkOf df s1 cfg.1 with
  | some c, some m =>
    if cfg.2 then (if NumVal.ltB m (c.cleanAt i) then 1 else 0)
    else (if NumVal.ltB (c.cleanAt i) m then 1 else 0)
  | _, _ => 0

/-- The score `calculate_score` assigns to raw row `i` of the Stage-1
snapshot `s1`. -/
def scoreIdx (df : DataFrame) (s1 : List ℕ) (i : ℕ) : ℕ :=
  (metricsCfg.map (scoreContrib df s1 i)).sum

/-- `query_base &= clean_numeric_column(view[col]) >= t` (minimum-install
style); `True` when the threshold widget or the column is absent. -/
def passGe (df : DataFrame) (thr : Option ℚ) (name : String) (i : ℕ) : Bool :=
  match thr, df.col? name with
  | some t, some c => (c.cleanAt i).geQ t
  | _, _ => true

/-- `query_base &= clean_numeric_column(view[col]) <= t` (maximum-CPI style);
`True` when the threshold widget or the column is absent. -/
def passLe (df : DataFrame) (thr : Option ℚ) (name : String) (i : ℕ) : Bool :=
  match thr, df.col? name with
  | some t, some c => (c.cleanAt i).leQ t
  | _, _ => true

/-- Stage 2 (`query_base` / `df_base_filtered`): the Stage-1 snapshot further
restricted by the install `>=` and CPI `<=` thresholds. -/
def stage2 (df : DataFrame) (s1 : List ℕ) (minInstall minCpi : Option ℚ) : List ℕ :=
  s1.filter (fun i => passGe df minInstall installCol i && passLe df minCpi cpiCol i)

/-- `df_final`: rows of the Stage-2 view whose (Stage-1-computed) score meets
the minimum-score slider; the empty DataFrame on the empty-stage branches. -/
def finalStage (df : DataFrame) (s1 s2 : List ℕ) (minScore : ℕ) : List ℕ :=
  if s1.isEmpty || s2.isEmpty then []
  else s2.filter (fun i => decide (minScore ≤ scoreIdx df s1 i))

/-- The derived views of one full run of the `app_advanced.py` pipeline:
Stage-1 row indices, their scores (the `得分` column), Stage-2 row indices,
and the final row indices. -/
structure PipelineOut where
  s1 : List ℕ
  scores : List ℕ
  s2 : List ℕ
  final : List ℕ
deriving DecidableEq

/-- One full run of the `app_advanced.py` pipeline for a given raw table and
widget state (date/country selections, install/CPI thresholds, score
threshold). -/
def runPipeline (df : DataFrame) (selDate selCountry : Option (List Val))
    (minInstall minCpi : Option ℚ) (minScore : ℕ) : PipelineOut :=
  let v1 := stage1 df selDate selCountry
  let sc := v1.map (scoreIdx df v1)
  let v2 := stage2 df v1 minInstall minCpi
  ⟨v1, sc, v2, finalStage df v1 v2 minScore⟩

/-- The number of scoring rules whose metric column is present in the schema
and has at least one valid (non-`NaN`) cleaned value on the snapshot. -/
def availCount (df : DataFrame) (s1 : List ℕ) : ℕ :=
  (metricsCfg.filter (fun cfg => (benchmarkOf df s1 cfg.1).isSome)).length

/-- The end-to-end example table of the specification: three rows sharing one
date and country, with percent-formatted CTR/CVR/retention and
currency-formatted CPM; the install value of row 1 and the CPI value of row 2
are unparseable text. -/
def demoDF : DataFrame where
  nrows := 3
  cols :=
    [("测试日期", .obj [.str "2024-01-01", .str "2024-01-01", .str "2024-01-01"]),
     ("国家", .obj [.str "US", .str "US", .str "US"]),
     ("Install(AF)", .obj [.str "100", .str "n/a", .str "300"]),
     ("CPI", .obj [.str "$1.00", .str "oops", .str "$0.80"]),
     ("CTR", .obj [.str "5%", .str "10%", .str "1%"]),
     ("CVR", .obj [.str "2%", .str "1%", .str "3%"]),
     ("次留", .obj [.str "30%", .str "40%", .str "20%"]),
     ("CPM", .obj [.str "$1.00", .str "$2.00", .str "$0.50"])]

/-- A four-row table whose `CTR` column holds the floats `1, 2, 3, 4` and
whose `CVR` column holds only unparseable text. -/
def demoDF4 : DataFrame where
  nrows := 4
  cols :=
    [("CTR", .numeric [.fin 1, .fin 2, .fin 3, .fin 4]),
     ("CVR", .obj [.str "a", .str "b", .str "c", .str "d"])]

/-- Each scoring rule contributes at most one point, and contributes nothing
when its metric's median is unavailable. -/
theorem scoreContrib_le_indicator (df : DataFrame) (s1 : List ℕ) (i : ℕ)
    (cfg : String × Bool) :
    scoreContrib df s1 i cfg ≤ if (benchmarkOf df s1 cfg.1).isSome then 1 else 0 := by
  unfold scoreContrib
  rcases hco : df.col? cfg.1 with _ | c <;>
    rcases hb : benchmarkOf df s1 cfg.1 with _ | m <;>
      simp only [hb, Option.isSome_some, Option.isSome_none, if_true, if_false,
        Nat.le_refl, Nat.zero_le] <;>
      split <;> split <;> omega

/-- A row's total over any rule list is bounded by the number of rules with an
available median. -/
theorem sum_scoreContrib_le (df : DataFrame) (s1 : List ℕ) (i : ℕ) :
    ∀ l : List (String × Bool),
      (l.map (scoreContrib df s1 i)).sum ≤
        (l.filter (fun cfg => (benchmarkOf df s1 cfg.1).isSome)).length := by
  intro l
  induction l with
  | nil => simp
  | cons a t ih =>
    have ha := scoreContrib_le_indicator df s1 i a
    cases hb : (benchmarkOf df s1 a.1).isSome <;>
      rw [hb] at ha <;> simp at ha <;>
      simp [List.filter_cons, hb] <;> omega

/-- C1 (security_hyperproperties): for every raw dataset and fixed Stage-1
selection, the score assigned to each row of the Stage-1 snapshot is computed
before — and independently of — the Stage-2 parameters: runs differing only in
the install/CPI thresholds (and the score threshold) produce identical score
columns. -/
theorem score_stability (df : DataFrame) (d c : Option (List Val))
    (p q p2 q2 : Option ℚ) (m m2 : ℕ) :
    (runPipeline df d c p q m).scores = (runPipeline df d c p2 q2 m2).scores := rfl

/-- C2 (functional_correctness): every row's score lies between `0` (by type)
and the number of scoring rules whose metric column is present and has at
least one valid cleaned value, and that number is at most `4`. -/
theorem score_bounded (df : DataFrame) (d c : Option (List Val)) (p q : Option ℚ)
    (m : ℕ) (x : ℕ) (hx : x ∈ (runPipeline df d c p q m).scores) :
    x ≤ availCount df (stage1 df d c) ∧ availCount df (stage1 df d c) ≤ 4 := by
  constructor
  · have hx' : x ∈ (stage1 df d c).map (scoreIdx df (stage1 df d c)) := hx
    obtain ⟨i, _, rfl⟩ := List.mem_map.mp hx'
    exact sum_scoreContrib_le df (stage1 df d c) i metricsCfg
  · have h := List.length_filter_le
      (fun cfg => (benchmarkOf df (stage1 df d c) cfg.1).isSome) metricsCfg
    simpa [availCount, metricsCfg] using h

/-- Witness for C2: on the specification's three-row example all four medians
are available and row 2 scores 2 ≤ 4 = availCount. -/
theorem score_bounded_witness :
    (2 : ℕ) ∈ (runPipeline demoDF none none none none 0).scores ∧
      2 ≤ availCount demoDF (stage1 demoDF none none) := by
  have hm : (2 : ℕ) ∈ (runPipeline demoDF none none none none 0).scores := by
    with_unfolding_all decide
  exact ⟨hm, (score_bounded demoDF none none none none 0 2 hm).1⟩

/-- C3 (invariants): for every raw dataset and all filter parameters, the
Stage-2 row set is a subset of the Stage-1 row set, and the final row set is a
subset of the Stage-2 row set. -/
theorem filter_monotonic (df : DataFrame) (d c : Option (List Val))
    (p q : Option ℚ) (m : ℕ) :
    (runPipeline df d c p q m).s2 ⊆ (runPipeline df d c p q m).s1 ∧
      (runPipeline df d c p q m).final ⊆ (runPipeline df d c p q m).s2 := by
  constructor
  · show stage2 df (stage1 df d c) p q ⊆ stage1 df d c
    exact (List.filter_sublist _).subset
  · show finalStage df (stage1 df d c) (stage2 df (stage1 df d c) p q) m ⊆
      stage2 df (stage1 df d c) p q
    unfold finalStage
    split
    · exact List.nil_subset _
    · exact (List.filter_sublist _).subset

/-- C4 (functional_correctness): the benchmark of a metric column whose
cleaned values are all `NaN` on the snapshot is unavailable (`None`); on
concrete values, the benchmark of `[1,2,3,4]` is `2.5` and of `[1,2,3]` is `2`
(standard median: ascending sort, average of the two middle values for even
counts). -/
theorem median_benchmark (df : DataFrame) (s1 : List ℕ) (name : String) (c : Column)
    (hc : df.col? name = some c) (hall : ∀ i ∈ s1, c.cleanAt i = NumVal.missing) :
    benchmarkOf df s1 name = none ∧
      benchmarkOf demoDF4 [0, 1, 2, 3] "CTR" = some (NumVal.fin (5 / 2)) ∧
      benchmarkOf demoDF4 [0, 1, 2] "CTR" = some (NumVal.fin 2) := by
  refine ⟨?_, by with_unfolding_all decide, by with_unfolding_all decide⟩
  unfold benchmarkOf
  rw [hc]
  have hnil : (s1.map c.cleanAt).filter (fun v => !v.isMissing) = [] := by
    rw [List.filter_eq_nil_iff]
    intro a ha
    obtain ⟨i, hi, rfl⟩ := List.mem_map.mp ha
    rw [hall i hi]
    decide
  simp [hnil]

/-- Witness for C4: the all-text `CVR` column of the four-row table cleans to
all-`NaN`, so its benchmark is unavailable. -/
theorem median_benchmark_witness :
    benchmarkOf demoDF4 [0, 1, 2, 3] "CVR" = none ∧
      benchmarkOf demoDF4 [0, 1, 2, 3] "CTR" = some (NumVal.fin (5 / 2)) := by
  have h := median_benchmark demoDF4 [0, 1, 2, 3] "CVR"
    (Column.obj [.str "a", .str "b", .str "c", .str "d"])
    (by with_unfolding_all decide) (by decide)
  exact ⟨h.1, h.2.1⟩

/-- C5 (functional_correctness): normalizing a textual value removes every
`%`, `$`, `,`, trims surrounding whitespace and parses a decimal float; an
empty parser input and a malformed remainder both give `Missing` (the
function is total — no error case exists). -/
theorem normalize_text (s : String) :
    cleanVal (.str s) = parseNum (trimChars (stripSyms s.data)) ∧
      parseNum [] = NumVal.missing ∧
      cleanVal (.str " %$, ") = NumVal.missing ∧
      cleanVal (.str "12a") = NumVal.missing :=
  ⟨rfl, by decide, by decide, by decide⟩

/-- C6 counterexample: `clean_numeric_column` leaves an already-numeric `+inf`
unchanged and `+inf` is not `Missing`, contradicting the claim that non-finite
numeric values normalize to `Missing`. -/
theorem numeric_inf_unchanged :
    clean_numeric_column (Column.numeric [NumVal.pinf]) = [NumVal.pinf] ∧
      NumVal.pinf ≠ NumVal.missing :=
  ⟨rfl, by decide⟩

/-- C6 (amended): an already-numeric column passes through normalization
unchanged — finite values stay themselves, `NaN` stays `NaN` (which is
`Missing`), and infinities stay infinities (which are not `Missing`). -/
theorem numeric_passthrough (xs : List NumVal) :
    clean_numeric_column (Column.numeric xs) = xs := rfl

/-- C7 (algebraic_relational): normalization is idempotent — normalizing the
numeric column produced by a normalization returns it unchanged — and on
textual numeric forms `"12.5%"` gives `12.5`, `"$3.40"` gives `3.4`,
`"1,234"` gives `1234`, `"abc"` gives `Missing`. -/
theorem normalize_idempotent (c : Column) :
    clean_numeric_column (Column.numeric (clean_numeric_column c)) =
        clean_numeric_column c ∧
      cleanVal (.str "12.5%") = NumVal.fin (25 / 2) ∧
      cleanVal (.str "$3.40") = NumVal.fin (17 / 5) ∧
      cleanVal (.str "1,234") = NumVal.fin 1234 ∧
      cleanVal (.str "abc") = NumVal.missing :=
  ⟨rfl, by with_unfolding_all decide, by with_unfolding_all decide,
    by with_unfolding_all decide, by decide⟩

/-- The minimum-install conjunct is `false` at a row whose cleaned value is
`NaN`, for every threshold. -/
theorem passGe_missing_false (df : DataFrame) (t : ℚ) (name : String) (i : ℕ)
    (c : Column) (hc : df.col? name = some c) (hm : c.cleanAt i = NumVal.missing) :
    passGe df (some t) name i = false := by
  unfold passGe
  rw [hc]
  show (c.cleanAt i).geQ t = false
  rw [hm]
  rfl

/-- The maximum-CPI conjunct is `false` at a row whose cleaned value is
`NaN`, for every threshold. -/
theorem passLe_missing_false (df : DataFrame) (t : ℚ) (name : String) (i : ℕ)
    (c : Column) (hc : df.col? name = some c) (hm : c.cleanAt i = NumVal.missing) :
    passLe df (some t) name i = false := by
  unfold passLe
  rw [hc]
  show (c.cleanAt i).leQ t = false
  rw [hm]
  rfl

/-- C8 (error_handling): a `Missing` cleaned value fails both numeric
threshold predicates (`>=` minimum install and `<=` maximum CPI) for every
threshold, so a row whose install (resp. CPI) value cleans to `Missing` is
excluded from the Stage-2 view whenever that threshold filter is active. -/
theorem missing_fails_thresholds (df : DataFrame) (d c : Option (List Val)) (m : ℕ)
    (t u : ℚ) (i j : ℕ) (ci cj : Column)
    (hci : df.col? installCol = some ci) (hmi : ci.cleanAt i = NumVal.missing)
    (hcj : df.col? cpiCol = some cj) (hmj : cj.cleanAt j = NumVal.missing) :
    NumVal.missing.geQ t = false ∧ NumVal.missing.leQ u = false ∧
      i ∉ (runPipeline df d c (some t) none m).s2 ∧
      j ∉ (runPipeline df d c none (some u) m).s2 := by
  refine ⟨rfl, rfl, ?_, ?_⟩
  · intro hmem
    have hmem' : i ∈ (stage1 df d c).filter
        (fun k => passGe df (some t) installCol k && passLe df none cpiCol k) := hmem
    have hpass := (List.mem_filter.mp hmem').2
    rw [Bool.and_eq_true] at hpass
    have h1 := hpass.1
    rw [passGe_missing_false df t installCol i ci hci hmi] at h1
    exact Bool.false_ne_true h1
  · intro hmem
    have hmem' : j ∈ (stage1 df d c).filter
        (fun k => passGe df none installCol k && passLe df (some u) cpiCol k) := hmem
    have hpass := (List.mem_filter.mp hmem').2
    rw [Bool.and_eq_true] at hpass
    have h1 := hpass.2
    rw [passLe_missing_false df u cpiCol j cj hcj hmj] at h1
    exact Bool.false_ne_true h1

/-- Witness for C8: in the demo table, row 1's install value `"n/a"` and CPI
value `"oops"` clean to `Missing`, so row 1 is excluded from Stage 2 under
either active threshold. -/
theorem missing_fails_thresholds_witness :
    (1 : ℕ) ∉ (runPipeline demoDF none none (some 0) none 0).s2 ∧
      (1 : ℕ) ∉ (runPipeline demoDF none none none (some 100) 0).s2 := by
  have h := missing_fails_thresholds demoDF none none 0 0 100 1 1
    (Column.obj [.str "100", .str "n/a", .str "300"])
    (Column.obj [.str "$1.00", .str "oops", .str "$0.80"])
    (by with_unfolding_all decide) (by decide)
    (by with_unfolding_all decide) (by decide)
  exact ⟨h.2.2.1, h.2.2.2⟩

/-- C9 (algebraic_relational): applying the date-set filter then the
country-set filter gives the same rows (indeed the same list) as the reverse
order, the composition preserves the parent view's row order (it is a
sublist), and Stage 1 equals that composition applied to the full table. -/
theorem filter_commutative (df : DataFrame) (sd sc : Option (List Val)) (v : List ℕ) :
    filterSel df sc countryCol (filterSel df sd dateCol v) =
        filterSel df sd dateCol (filterSel df sc countryCol v) ∧
      (filterSel df sc countryCol (filterSel df sd dateCol v)).Sublist v ∧
      stage1 df sd sc =
        filterSel df sc countryCol (filterSel df sd dateCol (List.range df.nrows)) := by
  refine ⟨?_, ?_, ?_⟩
  · unfold filterSel
    rw [List.filter_filter, List.filter_filter]
    exact List.filter_congr (fun a _ => Bool.and_comm _ _)
  · exact ((List.filter_sublist _).trans (List.filter_sublist _))
  · unfold stage1 filterSel
    rw [List.filter_filter]
    exact List.filter_congr (fun a _ => Bool.and_comm _ _)

/-- C10 (functional_correctness): because `%`, `$`, `,` are removed
everywhere in the string, `"1,2,3"` and `"$5$0"` normalize to the floats
`123` and `50` rather than to `Missing`. -/
theorem strip_everywhere :
    cleanVal (.str "1,2,3") = NumVal.fin 123 ∧
      cleanVal (.str "$5$0") = NumVal.fin 50 ∧
      NumVal.fin 123 ≠ NumVal.missing ∧ NumVal.fin 50 ≠ NumVal.missing :=
  ⟨by with_unfolding_all decide, by with_unfolding_all decide, by decide, by decide⟩

end StreamlitApp
